import Mathlib

/-!
Verification of the CornCare consultation-chat and unread-notification
subsystem, shallowly embedded from the frontend sources
(`ExpertDashboard.tsx`, the farmer consultation page, `UserChatPanel.tsx`,
`ExpertChatPanel.tsx`, `ChatIcon.tsx`, `NotificationBadge`, `auth-api.ts`).
Backend handlers (Read-Cursor Tracker, Message Store) are not part of the
frontend sources; where a claim depends on them they are modelled from the
specification and marked as such.
-/

namespace CornCare

/-- The two conversation participant roles (`sender` field of a chat message). -/
inductive Sender where
| user : Sender
| expert : Sender
deriving DecidableEq, Repr

/-- A chat message as used by the panels: id, sender role, text body and
optional attachment URL (the other attachment fields are irrelevant here). -/
structure ChatMessage where
  id : String
  sender : Sender
  message : String
  fileUrl : Option String
deriving DecidableEq, Repr

/-- Error taxonomy of the chat subsystem. -/
inductive ApiError where
| validationError : ApiError
| notFoundError : ApiError
| forbiddenError : ApiError
| transientBackendError : ApiError
deriving DecidableEq, Repr

/-- Number of messages from sender `s` in a list: the panels compute this via
`messages.filter(m.sender === ...).length`. -/
def countBySender (s : Sender) (msgs : List ChatMessage) : Nat :=
  (msgs.filter (fun m => m.sender == s)).length

/-- Functional update of a string-keyed count map, mirroring the JS spread
update on the `unreadCounts` / `lastMessageCounts` objects
(with the `|| 0` default folded into the total function). -/
def updateMap (m : String → Nat) (k : String) (v : Nat) : String → Nat :=
  fun k2 => if k2 = k then v else m k2

/-- Client-side per-dashboard state: the `unreadCounts` and
`lastMessageCounts` React state objects. -/
structure DashState where
  unreadCounts : String → Nat
  lastMessageCounts : String → Nat

/-- One iteration of the farmer-side consultation page loop body in
`checkForNewMessages` (per request): if the chat is open, `continue`; else
try the server unread count, and on failure only log (no fallback at all). -/
def userDashPollStep (openChatId : Option String) (rid : String)
    (unreadRes : Except ApiError Nat) (st : DashState) : DashState :=
  if openChatId = some rid then st
  else
    match unreadRes with
    | Except.ok u => { st with unreadCounts := updateMap st.unreadCounts rid u }
    | Except.error _ => st

/-- One iteration of the expert dashboard loop body in `checkForNewMessages`
(per request): skip the open chat; on unread success store it (and, when it
is zero, resync the baseline from the message list if that fetch succeeds);
on unread failure fall back to the client delta
`Math.max(0, currentCount - lastKnown)` and reset the baseline to the
current count, provided the message-list fetch succeeds. -/
def expertDashPollStep (openChatId : Option String) (rid : String)
    (unreadRes : Except ApiError Nat) (msgsRes : Except ApiError (List ChatMessage))
    (st : DashState) : DashState :=
  if openChatId = some rid then st
  else
    match unreadRes with
    | Except.ok u =>
      let st1 : DashState := { st with unreadCounts := updateMap st.unreadCounts rid u }
      if u = 0 then
        match msgsRes with
        | Except.ok msgs =>
          { st1 with lastMessageCounts :=
              updateMap st1.lastMessageCounts rid (countBySender Sender.user msgs) }
        | Except.error _ => st1
      else st1
    | Except.error _ =>
      match msgsRes with
      | Except.ok msgs =>
        let currentCount := countBySender Sender.user msgs
        let lastKnown := st.lastMessageCounts rid
        let unread := (max 0 ((currentCount : Int) - (lastKnown : Int))).toNat
        { st with
          unreadCounts := updateMap st.unreadCounts rid unread,
          lastMessageCounts := updateMap st.lastMessageCounts rid currentCount }
      | Except.error _ => st

/-- The farmer-side `handleNewMessage` callback: open chat keeps unread at 0
and bumps the baseline by one; otherwise the unread count is incremented. -/
def userHandleNewMessage (openChatId : Option String) (rid : String)
    (st : DashState) : DashState :=
  if openChatId = some rid then
    { st with
      lastMessageCounts := updateMap st.lastMessageCounts rid (st.lastMessageCounts rid + 1),
      unreadCounts := updateMap st.unreadCounts rid 0 }
  else
    { st with unreadCounts := updateMap st.unreadCounts rid (st.unreadCounts rid + 1) }

/-- The expert-side `handleNewMessage` callback: open chat pins unread to 0
(baseline untouched); otherwise the unread count is incremented. -/
def expertHandleNewMessage (openChatId : Option String) (rid : String)
    (st : DashState) : DashState :=
  if openChatId = some rid then
    { st with unreadCounts := updateMap st.unreadCounts rid 0 }
  else
    { st with unreadCounts := updateMap st.unreadCounts rid (st.unreadCounts rid + 1) }

/-- Result of one chat-panel poll tick: the replacement message list and how
many times the `onNewMessage` callback was invoked during the tick. -/
structure PanelPollResult where
  messages : List ChatMessage
  notifications : Nat
deriving DecidableEq, Repr

/-- The `UserChatPanel` 3-second poll tick body (fetch succeeded): replace the
list with `latest` and call `onNewMessage()` once if the number of expert
messages strictly increased. -/
def userPanelTick (prev latest : List ChatMessage) : PanelPollResult :=
  { messages := latest,
    notifications :=
      if countBySender Sender.expert prev < countBySender Sender.expert latest then 1 else 0 }

/-- The `ExpertChatPanel` 3-second poll tick body (fetch succeeded): replace
the list with `latest` and call `onNewMessage()` once if the number of user
messages strictly increased. -/
def expertPanelTick (prev latest : List ChatMessage) : PanelPollResult :=
  { messages := latest,
    notifications :=
      if countBySender Sender.user prev < countBySender Sender.user latest then 1 else 0 }

/-- The spec's notion of the newly observed counterpart messages of a tick:
messages from the counterpart role in the latest fetch whose id was not in
the previous fetch (stated from the claim, for comparison with the tick). -/
def specNewlyObserved (counterpart : Sender) (prev latest : List ChatMessage) :
    List ChatMessage :=
  latest.filter (fun m => m.sender == counterpart && !(prev.any (fun p => p.id == m.id)))

/-- The full `UserChatPanel` interval callback including its try/catch: a
failed fetch is swallowed (state kept, no notification), never rethrown. -/
def userPanelPollRun (fetchRes : Except ApiError (List ChatMessage))
    (prev : List ChatMessage) : Except ApiError PanelPollResult :=
  match fetchRes with
  | Except.ok latest => Except.ok (userPanelTick prev latest)
  | Except.error _ => Except.ok { messages := prev, notifications := 0 }

/-- The full `ExpertChatPanel` interval callback including its try/catch. -/
def expertPanelPollRun (fetchRes : Except ApiError (List ChatMessage))
    (prev : List ChatMessage) : Except ApiError PanelPollResult :=
  match fetchRes with
  | Except.ok latest => Except.ok (expertPanelTick prev latest)
  | Except.error _ => Except.ok { messages := prev, notifications := 0 }

/-- The farmer page's whole `checkForNewMessages` tick with its outer
try/catch: a failed request-list fetch is swallowed; each request is
processed by `userDashPollStep` (which has its own inner try/catch). -/
def userCheckForNewMessages (reqsRes : Except ApiError (List String))
    (unreadRes : String → Except ApiError Nat)
    (openChatId : Option String) (st : DashState) : Except ApiError DashState :=
  match reqsRes with
  | Except.error _ => Except.ok st
  | Except.ok reqs =>
    Except.ok (reqs.foldl (fun s rid => userDashPollStep openChatId rid (unreadRes rid) s) st)

/-- The expert dashboard's whole `checkForNewMessages` tick with its outer
try/catch. -/
def expertCheckForNewMessages (reqsRes : Except ApiError (List String))
    (unreadRes : String → Except ApiError Nat)
    (msgsRes : String → Except ApiError (List ChatMessage))
    (openChatId : Option String) (st : DashState) : Except ApiError DashState :=
  match reqsRes with
  | Except.error _ => Except.ok st
  | Except.ok reqs =>
    Except.ok (reqs.foldl
      (fun s rid => expertDashPollStep openChatId rid (unreadRes rid) (msgsRes rid) s) st)

/-- A poll tick completed without propagating an exception. -/
def pollTickSucceeds {α : Type} (r : Except ApiError α) : Prop :=
  ∃ s, r = Except.ok s

/-- UI state of the farmer consultation page around `openChat`. -/
structure UserConsultState where
  dash : DashState
  openChatId : Option String
  showChat : Bool

/-- The farmer page's `openChat`: `startChatSession` and `markChatRead` run
inside a try/catch whose outcome is only logged; afterwards the unread badge
is unconditionally cleared and the chat is opened. -/
def openChat (markReadRes : Except ApiError Unit) (rid : String)
    (st : UserConsultState) : UserConsultState :=
  match markReadRes with
  | Except.ok _ =>
    { dash := { st.dash with unreadCounts := updateMap st.dash.unreadCounts rid 0 },
      openChatId := some rid, showChat := true }
  | Except.error _ =>
    { dash := { st.dash with unreadCounts := updateMap st.dash.unreadCounts rid 0 },
      openChatId := some rid, showChat := true }

/-- UI state of the expert dashboard around chat open/close. -/
structure ExpertDashUiState where
  dash : DashState
  openChatId : Option String
  selectedChat : Option String
  showChat : Bool

/-- The expert dashboard's `handleStartChat`: `markChatRead` runs in a
try/catch with an empty handler; the badge is then cleared unconditionally
and the chat is opened. -/
def handleStartChat (markReadRes : Except ApiError Unit) (rid : String)
    (st : ExpertDashUiState) : ExpertDashUiState :=
  match markReadRes with
  | Except.ok _ =>
    { dash := { st.dash with unreadCounts := updateMap st.dash.unreadCounts rid 0 },
      openChatId := some rid, selectedChat := some rid, showChat := true }
  | Except.error _ =>
    { dash := { st.dash with unreadCounts := updateMap st.dash.unreadCounts rid 0 },
      openChatId := some rid, selectedChat := some rid, showChat := true }

/-- The expert dashboard's `handleCloseChat`: if a chat is selected, its
badge is zeroed immediately and a fire-and-forget `markChatRead` is issued
(failure swallowed); the chat is closed either way. -/
def handleCloseChat (markReadRes : Except ApiError Unit)
    (st : ExpertDashUiState) : ExpertDashUiState :=
  match st.selectedChat with
  | some rid =>
    match markReadRes with
    | Except.ok _ =>
      { dash := { st.dash with unreadCounts := updateMap st.dash.unreadCounts rid 0 },
        openChatId := none, selectedChat := none, showChat := false }
    | Except.error _ =>
      { dash := { st.dash with unreadCounts := updateMap st.dash.unreadCounts rid 0 },
        openChatId := none, selectedChat := none, showChat := false }
  | none =>
    { st with openChatId := none, selectedChat := none, showChat := false }

/-- Whitespace as stripped by the JS string trim method (the characters
relevant to chat input). -/
def isWhitespaceChar (c : Char) : Bool :=
  c == ' ' || c == '\t' || c == '\n' || c == '\r'

/-- The JS string trim: strip leading and trailing whitespace. -/
def jsTrim (s : String) : String :=
  String.mk (((s.toList.dropWhile isWhitespaceChar).reverse.dropWhile
    isWhitespaceChar).reverse)

/-- Compose-area state of a chat panel (`messages`, `newMessage`, `file`,
`sending`, `showEmoji`). -/
structure ComposeState where
  messages : List ChatMessage
  newMessage : String
  file : Option String
  sending : Bool
  showEmoji : Bool
deriving DecidableEq, Repr

/-- Result of a send handler: the next compose state and whether the send
request was actually issued. -/
structure SendOutcome where
  state : ComposeState
  sendAttempted : Bool

/-- The `UserChatPanel` `handleSend`: guard
`(!(newMessage && newMessage.trim()) && !file) || sending` returns without
sending; on success append the message and clear text, file and emoji
picker; on failure alert only (the finally clause resets `sending`). -/
def handleSend (sendRes : Except ApiError ChatMessage)
    (st : ComposeState) : SendOutcome :=
  if (!(st.newMessage != "" && jsTrim st.newMessage != "") && st.file.isNone) || st.sending then
    { state := st, sendAttempted := false }
  else
    match sendRes with
    | Except.ok msg =>
      { state := { st with
          messages := st.messages ++ [msg],
          newMessage := "",
          file := none,
          sending := false,
          showEmoji := false },
        sendAttempted := true }
    | Except.error _ =>
      { state := { st with sending := false }, sendAttempted := true }

/-- The `ExpertChatPanel` `handleSendMessage`: same guard and same
success/failure handling as the user panel (twin component). -/
def expertHandleSendMessage (sendRes : Except ApiError ChatMessage)
    (st : ComposeState) : SendOutcome :=
  if (!(st.newMessage != "" && jsTrim st.newMessage != "") && st.file.isNone) || st.sending then
    { state := st, sendAttempted := false }
  else
    match sendRes with
    | Except.ok msg =>
      { state := { st with
          messages := st.messages ++ [msg],
          newMessage := "",
          file := none,
          sending := false,
          showEmoji := false },
        sendAttempted := true }
    | Except.error _ =>
      { state := { st with sending := false }, sendAttempted := true }

/-- Modelled from the spec: the backend Read-Cursor Tracker (the handler of
the mark-read endpoint called by the frontend `markChatRead`) is not under
the available sources; per the spec, `markRead` is a monotonic
compare-and-set, new marker = max(old, new), with sentinel 0 for
nothing-read. -/
def cursorMarkRead (cursor marker : Nat) : Nat :=
  max cursor marker

/-- Effective cursor after a sequence of markRead calls, starting from the
nothing-read sentinel. -/
def cursorAfter (marks : List Nat) : Nat :=
  marks.foldl cursorMarkRead 0

/-- The payload field `unread` of the unread-count response as typed by the
client: either a JS number or anything else (absent / non-number). -/
inductive UnreadPayload where
| num : Int → UnreadPayload
| other : UnreadPayload
deriving DecidableEq, Repr

/-- `getUnreadCount` from `auth-api.ts`: return `res.data?.unread` when it is
a number, else 0 (no clamping). -/
def getUnreadCount (p : UnreadPayload) : Int :=
  match p with
  | UnreadPayload.num n => n
  | UnreadPayload.other => 0

/-- Modelled from the spec: the backend Message Store `append` (handler of
the send-message endpoint) is not under the available sources; per the spec
it fails with `ValidationError` if both text and attachment are empty, and
otherwise creates one immutable record. -/
def storeAppend (text : String) (attachment : Option String)
    (nextId : String) (sender : Sender) : Except ApiError ChatMessage :=
  if text == "" && attachment.isNone then
    Except.error ApiError.validationError
  else
    Except.ok { id := nextId, sender := sender, message := text, fileUrl := attachment }

/-- `NotificationBadge`: renders nothing for count 0, the string of the count
otherwise, capped at the literal 99+ above 99. -/
def notificationBadgeText (count : Int) : Option String :=
  if count = 0 then none
  else some (if count > 99 then "99+" else toString count)

/-- `ChatIcon` forwards its `unreadCount` prop to `NotificationBadge`. -/
def chatIconBadgeText (unreadCount : Int) : Option String :=
  notificationBadgeText unreadCount

/- Concrete values used by counterexamples and witnesses. -/

/-- A user-sent message. -/
def msgU1 : ChatMessage := { id := "m1", sender := Sender.user, message := "hello", fileUrl := none }

/-- A second user-sent message. -/
def msgU2 : ChatMessage := { id := "m2", sender := Sender.user, message := "again", fileUrl := none }

/-- An expert-sent message. -/
def msgE1 : ChatMessage := { id := "e1", sender := Sender.expert, message := "reply", fileUrl := none }

/-- A second expert-sent message. -/
def msgE2 : ChatMessage := { id := "e2", sender := Sender.expert, message := "more", fileUrl := none }

/-- Dashboard state with all counts zero. -/
def dashStZero : DashState :=
  { unreadCounts := fun _ => 0, lastMessageCounts := fun _ => 0 }

/-- Dashboard state where request r1 shows 5 unread and baseline 0. -/
def dashStFive : DashState :=
  { unreadCounts := fun r => if r = "r1" then 5 else 0,
    lastMessageCounts := fun _ => 0 }

/-- Farmer consultation page state with r1 showing 5 unread, no chat open. -/
def userSt0 : UserConsultState :=
  { dash := dashStFive, openChatId := none, showChat := false }

/-- Expert dashboard UI state with r1 selected and open, showing 5 unread. -/
def expertSt0 : ExpertDashUiState :=
  { dash := dashStFive, openChatId := some "r1", selectedChat := some "r1",
    showChat := true }

/-- Compose state with text ready to send. -/
def composeReady : ComposeState :=
  { messages := [], newMessage := "hi", file := none, sending := false,
    showEmoji := false }

/-- Compose state with whitespace-only text and no attachment. -/
def composeEmpty : ComposeState :=
  { messages := [], newMessage := "   ", file := none, sending := false,
    showEmoji := false }

/- Helper lemmas. -/

theorem updateMap_same (m : String → Nat) (k : String) (v : Nat) :
    updateMap m k v k = v := by
  simp [updateMap]

theorem cursorAfter_cons (a : Nat) (t : List Nat) :
    cursorAfter (a :: t) = max a (cursorAfter t) := by
  have key : ∀ (l : List Nat) (c : Nat),
      l.foldl cursorMarkRead c = max c (cursorAfter l) := by
    intro l
    induction l with
    | nil => intro c; simp [cursorAfter, cursorMarkRead]
    | cons b t2 ih =>
      intro c
      show t2.foldl cursorMarkRead (cursorMarkRead c b) = max c (cursorAfter (b :: t2))
      have h1 : cursorAfter (b :: t2) = t2.foldl cursorMarkRead (cursorMarkRead 0 b) := rfl
      rw [ih (cursorMarkRead c b), h1, ih (cursorMarkRead 0 b)]
      simp [cursorMarkRead]
      omega
  show (a :: t).foldl cursorMarkRead 0 = max a (cursorAfter t)
  rw [List.foldl_cons, key t (cursorMarkRead 0 a)]
  simp [cursorMarkRead]

theorem cursorAfter_perm {l l' : List Nat} (h : List.Perm l l') :
    cursorAfter l = cursorAfter l' := by
  induction h with
  | nil => rfl
  | cons a _ ih => rw [cursorAfter_cons, cursorAfter_cons, ih]
  | swap a b t =>
    rw [cursorAfter_cons, cursorAfter_cons, cursorAfter_cons, cursorAfter_cons]
    omega
  | trans _ _ ih1 ih2 => exact ih1.trans ih2

theorem mem_le_cursorAfter {m : Nat} {l : List Nat} (h : m ∈ l) :
    m ≤ cursorAfter l := by
  induction l with
  | nil => cases h
  | cons a t ih =>
    rw [cursorAfter_cons]
    rcases List.mem_cons.mp h with h1 | h2
    · omega
    · have := ih h2
      omega

theorem cursorAfter_attained_aux (l : List Nat) :
    cursorAfter l = 0 ∨ cursorAfter l ∈ l := by
  induction l with
  | nil => left; rfl
  | cons a t ih =>
    rw [cursorAfter_cons]
    rcases ih with h0 | hmem
    · right
      rw [h0]
      simp
    · rcases Nat.le_total a (cursorAfter t) with hle | hge
      · right
        rw [Nat.max_eq_right hle]
        exact List.mem_cons_of_mem _ hmem
      · right
        rw [Nat.max_eq_left hge]
        exact List.mem_cons_self a t

/- Claim theorems. -/

/-- C1 counterexample: the claim asserts that every adapter instance — the
farmer-side consultation page included — falls back to the local delta and
resets the baseline when the server unread fetch fails. On the farmer page,
with 5 displayed unread, baseline 0 and a current counterpart count of 2,
a failing tick leaves the unread count at 5 (not max(0, 2 − 0) = 2) and the
baseline at 0 (not 2): the farmer adapter has no fallback at all. -/
theorem claim_C1_counterexample :
    (userDashPollStep none "r1" (Except.error ApiError.transientBackendError)
        dashStFive).unreadCounts "r1" = 5 ∧
    (userDashPollStep none "r1" (Except.error ApiError.transientBackendError)
        dashStFive).lastMessageCounts "r1" = 0 ∧
    (5 : Nat) ≠ (max 0 ((2 : Int) - (0 : Int))).toNat ∧
    (0 : Nat) ≠ 2 := by
  refine ⟨rfl, rfl, by decide, by decide⟩

/-- C1 (amended): only the expert-dashboard adapter has the fallback, and
only when the fallback message-list fetch itself succeeds: then the
displayed unread count becomes max(0, current − lastKnown) and the baseline
becomes the current counterpart-message count, regardless of the delta's
sign; when that fetch also fails the expert state is unchanged, and the
farmer-side page performs no fallback at all on unread-fetch failure. -/
theorem claim_C1_amended (openId : Option String) (rid : String)
    (e e2 e3 : ApiError) (msgs : List ChatMessage) (st : DashState)
    (h : openId ≠ some rid) :
    ((expertDashPollStep openId rid (Except.error e) (Except.ok msgs) st).unreadCounts rid
      = (max 0 ((countBySender Sender.user msgs : Int) - (st.lastMessageCounts rid : Int))).toNat) ∧
    ((expertDashPollStep openId rid (Except.error e) (Except.ok msgs) st).lastMessageCounts rid
      = countBySender Sender.user msgs) ∧
    (expertDashPollStep openId rid (Except.error e) (Except.error e2) st = st) ∧
    (userDashPollStep openId rid (Except.error e3) st = st) := by
  refine ⟨?_, ?_, ?_, ?_⟩ <;>
    simp [expertDashPollStep, userDashPollStep, h, updateMap]

/-- C1 witness: concrete run of the amended statement with two counterpart
messages, baseline 0 and 5 previously displayed unread. -/
theorem claim_C1_witness :
    ((expertDashPollStep none "r1" (Except.error ApiError.transientBackendError)
        (Except.ok [msgU1, msgU2]) dashStFive).unreadCounts "r1"
      = (max 0 ((countBySender Sender.user [msgU1, msgU2] : Int)
          - (dashStFive.lastMessageCounts "r1" : Int))).toNat) ∧
    ((expertDashPollStep none "r1" (Except.error ApiError.transientBackendError)
        (Except.ok [msgU1, msgU2]) dashStFive).lastMessageCounts "r1"
      = countBySender Sender.user [msgU1, msgU2]) ∧
    (expertDashPollStep none "r1" (Except.error ApiError.transientBackendError)
      (Except.error ApiError.transientBackendError) dashStFive = dashStFive) ∧
    (userDashPollStep none "r1" (Except.error ApiError.transientBackendError)
      dashStFive = dashStFive) :=
  claim_C1_amended none "r1" ApiError.transientBackendError
    ApiError.transientBackendError ApiError.transientBackendError
    [msgU1, msgU2] dashStFive (by decide)

/-- C2 counterexample: two counterpart messages arriving between two ticks
are both newly observed, yet the tick invokes onNewMessage only once — so
the claimed one-notification-per-message property fails. -/
theorem claim_C2_counterexample :
    (userPanelTick [] [msgE1, msgE2]).notifications = 1 ∧
    (specNewlyObserved Sender.expert [] [msgE1, msgE2]).length = 2 ∧
    (1 : Nat) ≠ 2 := by
  refine ⟨rfl, rfl, by decide⟩

/-- C2 (amended): each panel tick raises at most one notification: exactly
one onNewMessage call when the counterpart-message count strictly increased
since the previous fetch (several new counterpart messages collapse into a
single notification) and none otherwise; the tick replaces the local list
with the latest fetch. -/
theorem claim_C2_amended (prev latest : List ChatMessage) :
    ((userPanelTick prev latest).notifications ≤ 1) ∧
    (countBySender Sender.expert prev < countBySender Sender.expert latest →
      (userPanelTick prev latest).notifications = 1) ∧
    (countBySender Sender.expert latest ≤ countBySender Sender.expert prev →
      (userPanelTick prev latest).notifications = 0) ∧
    ((userPanelTick prev latest).messages = latest) ∧
    ((expertPanelTick prev latest).notifications ≤ 1) ∧
    (countBySender Sender.user prev < countBySender Sender.user latest →
      (expertPanelTick prev latest).notifications = 1) ∧
    (countBySender Sender.user latest ≤ countBySender Sender.user prev →
      (expertPanelTick prev latest).notifications = 0) ∧
    ((expertPanelTick prev latest).messages = latest) := by
  refine ⟨?_, fun h => ?_, fun h => ?_, rfl, ?_, fun h => ?_, fun h => ?_, rfl⟩ <;>
    · simp only [userPanelTick, expertPanelTick]
      split <;> omega

/-- C2 witness: one new expert message raises one notification; an unchanged
list raises none. -/
theorem claim_C2_witness :
    (userPanelTick [] [msgE1]).notifications = 1 ∧
    (expertPanelTick [msgU1] [msgU1]).notifications = 0 :=
  ⟨(claim_C2_amended [] [msgE1]).2.1 (by decide),
   (claim_C2_amended [msgU1] [msgU1]).2.2.2.2.2.2.1 (by decide)⟩

/-- C3 counterexample: when the expert dashboard polls the currently-open
conversation it skips it entirely; with a current counterpart count of 2 the
baseline stays 0 instead of being advanced to 2 as the claim asserts. -/
theorem claim_C3_counterexample :
    (expertDashPollStep (some "r1") "r1" (Except.ok 0)
        (Except.ok [msgU1, msgU2]) dashStZero).lastMessageCounts "r1" = 0 ∧
    countBySender Sender.user [msgU1, msgU2] = 2 ∧
    (0 : Nat) ≠ 2 := by
  refine ⟨rfl, rfl, by decide⟩

/-- C3 (amended): a dashboard poll tick of the currently-open conversation
leaves the entire client state unchanged (the loop skips it): no
notification, no unread change — in particular the badge is never made
positive by a poll — and the baseline is NOT advanced. The open
conversation's unread is pinned to 0 only by the handleNewMessage callback,
which on the farmer side also bumps the baseline by exactly one and on the
expert side leaves the baseline untouched. -/
theorem claim_C3_amended (rid : String) (u : Except ApiError Nat)
    (m : Except ApiError (List ChatMessage)) (st : DashState) :
    (expertDashPollStep (some rid) rid u m st = st) ∧
    (userDashPollStep (some rid) rid u st = st) ∧
    ((expertHandleNewMessage (some rid) rid st).unreadCounts rid = 0) ∧
    ((userHandleNewMessage (some rid) rid st).unreadCounts rid = 0) ∧
    ((userHandleNewMessage (some rid) rid st).lastMessageCounts rid
      = st.lastMessageCounts rid + 1) ∧
    ((expertHandleNewMessage (some rid) rid st).lastMessageCounts rid
      = st.lastMessageCounts rid) := by
  refine ⟨?_, ?_, ?_, ?_, ?_, ?_⟩ <;>
    simp [expertDashPollStep, userDashPollStep, expertHandleNewMessage,
      userHandleNewMessage, updateMap]

/-- C4: the Read-Cursor Tracker cursor (modelled from the spec, the backend
handler being outside the available sources) is a monotonic max-fold: the
effective cursor after any sequence of markRead markers is their maximum
regardless of order, a marker at or below the cursor is a no-op, and the
cursor never regresses. -/
theorem claim_C4_cursor_monotone :
    (∀ (l l' : List Nat), List.Perm l l' → cursorAfter l = cursorAfter l') ∧
    (∀ c m : Nat, m ≤ c → cursorMarkRead c m = c) ∧
    (∀ c m : Nat, c ≤ cursorMarkRead c m) ∧
    (∀ (l : List Nat) (m : Nat), m ∈ l → m ≤ cursorAfter l) ∧
    (∀ l : List Nat, cursorAfter l = 0 ∨ cursorAfter l ∈ l) := by
  refine ⟨fun l l' h => cursorAfter_perm h,
    fun c m h => Nat.max_eq_left h,
    fun c m => Nat.le_max_left c m,
    fun l m h => mem_le_cursorAfter h,
    cursorAfter_attained_aux⟩

/-- C4 witness: concrete marker sequences. -/
theorem claim_C4_witness :
    cursorAfter [3, 1, 2] = cursorAfter [2, 3, 1] ∧
    cursorMarkRead 5 4 = 5 ∧
    2 ≤ cursorMarkRead 2 7 ∧
    3 ≤ cursorAfter [1, 3, 2] ∧
    (cursorAfter [1, 3, 2] = 0 ∨ cursorAfter [1, 3, 2] ∈ [1, 3, 2]) :=
  ⟨claim_C4_cursor_monotone.1 [3, 1, 2] [2, 3, 1] (by decide),
   claim_C4_cursor_monotone.2.1 5 4 (by decide),
   claim_C4_cursor_monotone.2.2.1 2 7,
   claim_C4_cursor_monotone.2.2.2.1 [1, 3, 2] 3 (by decide),
   claim_C4_cursor_monotone.2.2.2.2 [1, 3, 2]⟩

/-- C5 counterexample: the client getUnreadCount does not clamp: a server
response whose unread field is the number −2 is returned as −2, a negative
value, contradicting the claimed non-negativity. -/
theorem claim_C5_counterexample :
    getUnreadCount (UnreadPayload.num (-2)) = -2 ∧
    ¬(0 ≤ getUnreadCount (UnreadPayload.num (-2))) := by
  refine ⟨rfl, by decide⟩

/-- C5 (amended): getUnreadCount returns the payload's unread field verbatim
whenever it is a number — including a negative one, no clamping — and 0 when
it is absent or not a number; the result is non-negative exactly when the
server-sent number is. -/
theorem claim_C5_amended :
    (∀ n : Int, getUnreadCount (UnreadPayload.num n) = n) ∧
    (getUnreadCount UnreadPayload.other = 0) ∧
    (∀ n : Int, 0 ≤ n → 0 ≤ getUnreadCount (UnreadPayload.num n)) :=
  ⟨fun _ => rfl, rfl, fun _ h => h⟩

/-- C5 witness: a non-negative server payload passes through non-negatively. -/
theorem claim_C5_witness :
    getUnreadCount (UnreadPayload.num 3) = 3 ∧
    0 ≤ getUnreadCount (UnreadPayload.num 3) :=
  ⟨claim_C5_amended.1 3, claim_C5_amended.2.2 3 (by decide)⟩

/-- C6 counterexample: with 5 displayed unread on r1, opening the chat while
markChatRead fails still zeroes the badge — the claim that a failed
mark-read leaves the badge un-zeroed is false. -/
theorem claim_C6_counterexample :
    dashStFive.unreadCounts "r1" = 5 ∧
    (openChat (Except.error ApiError.transientBackendError) "r1"
        userSt0).dash.unreadCounts "r1" = 0 ∧
    (0 : Nat) ≠ 5 := by
  refine ⟨rfl, rfl, by decide⟩

/-- C6 (amended): opening a chat (farmer page openChat, expert dashboard
handleStartChat) and closing it (handleCloseChat with a selected chat)
always zero the local unread badge for that conversation, whether the
markChatRead call succeeded or failed: the zeroing is unconditional. -/
theorem claim_C6_amended (res : Except ApiError Unit) (rid : String)
    (stu : UserConsultState) (ste : ExpertDashUiState)
    (hsel : ste.selectedChat = some rid) :
    ((openChat res rid stu).dash.unreadCounts rid = 0) ∧
    ((handleStartChat res rid ste).dash.unreadCounts rid = 0) ∧
    ((handleCloseChat res ste).dash.unreadCounts rid = 0) := by
  refine ⟨?_, ?_, ?_⟩
  · cases res <;> simp [openChat, updateMap]
  · cases res <;> simp [handleStartChat, updateMap]
  · cases res <;> simp [handleCloseChat, hsel, updateMap]

/-- C6 witness: concrete successful open and close both zero the badge. -/
theorem claim_C6_witness :
    ((openChat (Except.ok ()) "r1" userSt0).dash.unreadCounts "r1" = 0) ∧
    ((handleStartChat (Except.ok ()) "r1" expertSt0).dash.unreadCounts "r1" = 0) ∧
    ((handleCloseChat (Except.ok ()) expertSt0).dash.unreadCounts "r1" = 0) :=
  claim_C6_amended (Except.ok ()) "r1" userSt0 expertSt0 rfl

/-- C7: in both chat panels, a failed send leaves the compose text, the
selected attachment and the local message list exactly as they were, and the
compose fields are cleared precisely on a successful, actually-issued
send. -/
theorem claim_C7_send_failure_preserves_compose (st : ComposeState)
    (e : ApiError) (msg : ChatMessage) :
    ((handleSend (Except.error e) st).state.newMessage = st.newMessage) ∧
    ((handleSend (Except.error e) st).state.file = st.file) ∧
    ((handleSend (Except.error e) st).state.messages = st.messages) ∧
    ((expertHandleSendMessage (Except.error e) st).state.newMessage = st.newMessage) ∧
    ((expertHandleSendMessage (Except.error e) st).state.file = st.file) ∧
    ((expertHandleSendMessage (Except.error e) st).state.messages = st.messages) ∧
    ((handleSend (Except.ok msg) st).sendAttempted = true →
      (handleSend (Except.ok msg) st).state.newMessage = "" ∧
      (handleSend (Except.ok msg) st).state.file = none) ∧
    ((expertHandleSendMessage (Except.ok msg) st).sendAttempted = true →
      (expertHandleSendMessage (Except.ok msg) st).state.newMessage = "" ∧
      (expertHandleSendMessage (Except.ok msg) st).state.file = none) := by
  refine ⟨?_, ?_, ?_, ?_, ?_, ?_, fun h => ?_, fun h => ?_⟩
  · unfold handleSend; split <;> rfl
  · unfold handleSend; split <;> rfl
  · unfold handleSend; split <;> rfl
  · unfold expertHandleSendMessage; split <;> rfl
  · unfold expertHandleSendMessage; split <;> rfl
  · unfold expertHandleSendMessage; split <;> rfl
  · unfold handleSend at h ⊢
    split at h
    · simp at h
    · rename_i hc
      rw [if_neg hc]
      exact ⟨rfl, rfl⟩
  · unfold expertHandleSendMessage at h ⊢
    split at h
    · simp at h
    · rename_i hc
      rw [if_neg hc]
      exact ⟨rfl, rfl⟩

/-- C7 witness: with text "hi" ready, a failed send keeps the text and a
successful send clears text and attachment. -/
theorem claim_C7_witness :
    ((handleSend (Except.error ApiError.transientBackendError)
        composeReady).state.newMessage = composeReady.newMessage) ∧
    ((handleSend (Except.ok msgU1) composeReady).state.newMessage = "" ∧
      (handleSend (Except.ok msgU1) composeReady).state.file = none) :=
  ⟨(claim_C7_send_failure_preserves_compose composeReady
      ApiError.transientBackendError msgU1).1,
   (claim_C7_send_failure_preserves_compose composeReady
      ApiError.transientBackendError msgU1).2.2.2.2.2.2.1 (by decide)⟩

/-- C8: when the trimmed compose text is empty and no file is attached,
neither panel issues a send request (the handler returns with the state
untouched), and the Message Store append (modelled from the spec, the
backend handler being outside the available sources) rejects an empty text
with no attachment with ValidationError, creating no record. -/
theorem claim_C8_empty_send_rejected (st : ComposeState)
    (r r2 : Except ApiError ChatMessage) (nextId : String) (s : Sender)
    (htrim : jsTrim st.newMessage = "") (hfile : st.file = none) :
    ((handleSend r st).sendAttempted = false) ∧
    ((handleSend r st).state = st) ∧
    ((expertHandleSendMessage r2 st).sendAttempted = false) ∧
    ((expertHandleSendMessage r2 st).state = st) ∧
    (storeAppend "" none nextId s = Except.error ApiError.validationError) := by
  refine ⟨?_, ?_, ?_, ?_, rfl⟩ <;>
    simp [handleSend, expertHandleSendMessage, htrim, hfile]

/-- C8 witness: whitespace-only text with no attachment never reaches the
send call, and the modelled append rejects the empty message. -/
theorem claim_C8_witness :
    ((handleSend (Except.ok msgU1) composeEmpty).sendAttempted = false) ∧
    (storeAppend "" none "m9" Sender.user = Except.error ApiError.validationError) :=
  ⟨(claim_C8_empty_send_rejected composeEmpty (Except.ok msgU1) (Except.ok msgU1)
      "m9" Sender.user (by decide) rfl).1,
   (claim_C8_empty_send_rejected composeEmpty (Except.ok msgU1) (Except.ok msgU1)
      "m9" Sender.user (by decide) rfl).2.2.2.2⟩

/-- C9: every polling loop body — both panels' 3-second message polls and
both dashboards' 5-second unread polls — catches failures inside the tick:
for every combination of fetch outcomes the tick completes with a value and
never propagates an error, so the interval survives and retries. -/
theorem claim_C9_poll_tick_never_throws
    (fetchU fetchE : Except ApiError (List ChatMessage))
    (prev : List ChatMessage)
    (reqsRes : Except ApiError (List String))
    (unreadRes : String → Except ApiError Nat)
    (msgsRes : String → Except ApiError (List ChatMessage))
    (openChatId : Option String) (st : DashState) :
    pollTickSucceeds (userPanelPollRun fetchU prev) ∧
    pollTickSucceeds (expertPanelPollRun fetchE prev) ∧
    pollTickSucceeds (userCheckForNewMessages reqsRes unreadRes openChatId st) ∧
    pollTickSucceeds (expertCheckForNewMessages reqsRes unreadRes msgsRes openChatId st) := by
  refine ⟨?_, ?_, ?_, ?_⟩
  · cases fetchU <;> exact ⟨_, rfl⟩
  · cases fetchE <;> exact ⟨_, rfl⟩
  · cases reqsRes <;> exact ⟨_, rfl⟩
  · cases reqsRes <;> exact ⟨_, rfl⟩

/-- C10: the notification badge renders nothing at count 0, the exact count
between 1 and 99, and the capped text above 99; ChatIcon forwards its unread
count to the badge unchanged. -/
theorem claim_C10_badge_rendering (c : Int) :
    (c = 0 → notificationBadgeText c = none) ∧
    (1 ≤ c → c ≤ 99 → notificationBadgeText c = some (toString c)) ∧
    (99 < c → notificationBadgeText c = some "99+") ∧
    (chatIconBadgeText c = notificationBadgeText c) := by
  refine ⟨fun h => ?_, fun h1 h2 => ?_, fun h => ?_, rfl⟩
  · simp [notificationBadgeText, h]
  · have hne : ¬(c = 0) := by omega
    have hcap : ¬(c > 99) := by omega
    simp [notificationBadgeText, hne, hcap]
  · have hne : ¬(c = 0) := by omega
    simp [notificationBadgeText, hne, h]

/-- C10 witness: the three regimes at 0, 42 and 150. -/
theorem claim_C10_witness :
    notificationBadgeText 0 = none ∧
    notificationBadgeText 42 = some (toString (42 : Int)) ∧
    notificationBadgeText 150 = some "99+" :=
  ⟨(claim_C10_badge_rendering 0).1 rfl,
   (claim_C10_badge_rendering 42).2.1 (by decide) (by decide),
   (claim_C10_badge_rendering 150).2.2.1 (by decide)⟩

end CornCare
